import Mathlib

/-!
Verification of the Fireflies → DealCloud reconciliation engine.

Shallow embedding of the repository's core logic:
  * `services/sync_service.py`   — `SyncService` (pipeline, formatting, project-name
    extraction, note-completeness heuristic, run controller `sync_all`)
  * `services/dealcloud_client.py` — `DealCloudClient` (query cache, 429 replay)
  * `services/fireflies_client.py` — transcript fetch limit
  * `app.py`                     — the HTTP endpoints' limit capping
  * `config.py`                  — relevant defaults

External HTTP services are modelled by an explicit environment (`Env`): each
CRM operation the engine invokes is a field of `Env`, and the engine's outbound
create/update calls are recorded in an `Effects` record.  Python dictionary
accesses `d.get(k, default)` are modelled as `Option.getD`; Python truthiness
of ints, strings and lists is modelled by the `intTruthy` / `isEmpty` helpers.
All strings in scope are ASCII, so Python's `\w`, `\s`, upper/lower case and
code-point string ordering coincide with the ASCII notions used here.
-/

/-- Python regex `\s` / `str.strip` whitespace class (space, tab, LF, CR, VT, FF). -/
def isPySpace (c : Char) : Bool :=
  c = ' ' || c = '\t' || c = '\n' || c = '\r' || c = '\x0b' || c = '\x0c'

/-- ASCII `[a-zA-Z0-9]`, the character class used in pattern 2 of
`extract_project_name` (sync_service.py line 103). -/
def isAlnumChar (c : Char) : Bool := c.isAlpha || c.isDigit

/-- ASCII `\w` (`[a-zA-Z0-9_]`), used in pattern 1 of `extract_project_name`. -/
def isWordChar (c : Char) : Bool := isAlnumChar c || c = '_'

/-- Python `sep.join(xs)`. -/
def joinSep (sep : String) : List String → String
  | [] => ""
  | [a] => a
  | a :: b :: rest => a ++ sep ++ joinSep sep (b :: rest)

/-- Python `needle in hay` substring test, on character lists. -/
def listContainsSub (hay needle : List Char) : Bool :=
  (List.range (hay.length + 1)).any (fun i => needle.isPrefixOf (hay.drop i))

/-- Python `needle in hay` substring test on strings. -/
def strContains (hay needle : String) : Bool := listContainsSub hay.data needle.data

/-- Python truthiness of an optional integer field (`None` and `0` are falsy). -/
def intTruthy : Option Int → Bool
  | none => false
  | some n => n != 0

/-- Python `set.add` modelled on a duplicate-free list (insertion order kept). -/
def insertSet (l : List String) (x : String) : List String :=
  if l.contains x then l else l ++ [x]

/-- Python `str.lower()` on ASCII strings. -/
def strLower (s : String) : String := String.mk (s.data.map Char.toLower)

/-- Python `str.split(sep)` for a single-character separator, on characters. -/
def splitOnChar (sep : Char) : List Char → List (List Char)
  | [] => [[]]
  | c :: rest =>
    let r := splitOnChar sep rest
    if c = sep then [] :: r
    else
      match r with
      | h :: t => (c :: h) :: t
      | [] => [[c]]

/-- Python `str.strip()`: whitespace removed from both ends. -/
def pyStrip (s : String) : String :=
  String.mk (((s.data.dropWhile isPySpace).reverse.dropWhile isPySpace).reverse)

/-- Attempt of pattern 1, `(Project\s+\w+)` with `re.IGNORECASE`, anchored at
the head of `l`: the literal `Project` case-insensitively, then `\s+`, then
`\w+`, both greedy.  Returns the matched text. -/
def matchProjectAt (l : List Char) : Option (List Char) :=
  if (l.take 7).map Char.toLower = "project".data then
    let rest := l.drop 7
    let ws := rest.takeWhile isPySpace
    if ws.isEmpty then none
    else
      let rest2 := rest.drop ws.length
      let wd := rest2.takeWhile isWordChar
      if wd.isEmpty then none
      else some (l.take 7 ++ ws ++ wd)
  else none

/-- `re.search` of pattern 1: leftmost position where `matchProjectAt` succeeds. -/
def searchProject : List Char → Option (List Char)
  | [] => none
  | c :: cs =>
    match matchProjectAt (c :: cs) with
    | some r => some r
    | none => searchProject cs

/-- The separator class `[-:/<>]` of pattern 2. -/
def sepChars : List Char := ['-', ':', '/', '<', '>']

/-- `re.match` of pattern 2,
`^([A-Z][a-zA-Z0-9]+(?:\s+[A-Z][a-zA-Z0-9]+)?)\s*[-:/<>]`: a leading
capitalized word, optionally a second capitalized word, then optional
whitespace and one separator.  Returns group 1.  The optional group is tried
first (greedy) and dropped if the tail fails, exactly as the regex engine
backtracks. -/
def matchCodeName (l : List Char) : Option (List Char) :=
  match l with
  | [] => none
  | c :: rest =>
    if c.isUpper then
      let w1 := rest.takeWhile isAlnumChar
      if w1.isEmpty then none
      else
        let after1 := rest.drop w1.length
        let ws := after1.takeWhile isPySpace
        let afterWs := after1.drop ws.length
        let withSecond : Option (List Char) :=
          if ws.isEmpty then none
          else
            match afterWs with
            | d :: rest2 =>
              if d.isUpper then
                let w2 := rest2.takeWhile isAlnumChar
                if w2.isEmpty then none
                else
                  let after2 := rest2.drop w2.length
                  let ws2 := after2.takeWhile isPySpace
                  match after2.drop ws2.length with
                  | e :: _ =>
                    if sepChars.contains e then some ((c :: w1) ++ ws ++ d :: w2) else none
                  | [] => none
              else none
            | [] => none
        match withSecond with
        | some g => some g
        | none =>
          match afterWs with
          | e :: _ => if sepChars.contains e then some (c :: w1) else none
          | [] => none
    else none

/-- The stoplist of sync_service.py lines 107-108. -/
def skip_words : List String :=
  ["call", "meeting", "discussion", "touchbase", "catch", "internal",
   "weekly", "daily", "sync", "update", "review", "valesco", "team"]

/-- `SyncService.extract_project_name` (sync_service.py lines 77-112).
Pattern 1 is tried anywhere in the title; otherwise pattern 2 at the start,
filtered by the stoplist.  The source's `.strip()` on group 1 is the identity
because the group starts with `[A-Z]` and ends with `[a-zA-Z0-9]`. -/
def extract_project_name (title : String) : Option String :=
  if title.isEmpty then none
  else
    match searchProject title.data with
    | some m => some (String.mk m)
    | none =>
      match matchCodeName title.data with
      | some g =>
        if skip_words.contains (String.mk (g.map Char.toLower)) then none
        else some (String.mk g)
      | none => none

/-! ## Data model -/

/-- A Fireflies structured summary (the GraphQL `summary` object; each field may
be absent or empty, matching the `summary.get(...)` accesses in
`SyncService.format_content`). -/
structure Summary where
  overview : Option String
  shorthand_bullet : Option String
  outline : Option String
  action_items : Option (List String)
  keywords : Option (List String)
deriving DecidableEq

/-- A Fireflies transcript as consumed by `SyncService.process_transcript`.
`none` models an absent key; `transcript.get(k, d)` is `Option.getD`. -/
structure Transcript where
  id : Option String
  title : Option String
  date : Option String
  duration : Option Int
  participants : Option (List String)
  summary : Option Summary
deriving DecidableEq

/-- A `{"id": ..., "name": ...}` reference inside a Company field. -/
structure CompanyRef where
  id : Option Int
  name : String
deriving DecidableEq

/-- A contact row returned by `DealCloudClient.search_contacts_by_email`.
`email` models `contact.get("Email", "Unknown")` after defaulting and `name`
the display name extracted from the `FullName` dict/str (sync_service.py lines
251-255); `company` models the list case of `contact.get("Company", [])`. -/
structure ContactRow where
  entryId : Option Int
  email : String
  name : String
  company : List CompanyRef
deriving DecidableEq

/-- The dict returned by `DealCloudClient.create_contact` on success. -/
structure CreatedContact where
  entryId : Option Int
  firstName : String
  lastName : String
deriving DecidableEq

/-- `deal.get("Company", [])` is either a list of refs or a single dict
(sync_service.py lines 335-343 handle both shapes); `refs []` also covers the
default and any non-dict, non-list value (neither branch fires). -/
inductive CompanyField where
  | refs : List CompanyRef → CompanyField
  | single : CompanyRef → CompanyField
deriving DecidableEq

/-- A deal row; `dealName` models `deal.get("DealName", "Unknown")` after
defaulting. -/
structure DealRow where
  entryId : Option Int
  dealName : String
  company : CompanyField
deriving DecidableEq

/-- An interaction row as returned by
`DealCloudClient.search_interaction_by_subject`. -/
structure Interaction where
  entryId : Option Int
  notes : Option String
deriving DecidableEq

/-- A `found_contacts` / `created_contacts` entry (sync_service.py lines 259-263,
289-293). -/
structure ContactInfo where
  email : String
  name : String
  id : Option Int
deriving DecidableEq

/-- A `found_deals` entry (sync_service.py lines 326-329). -/
structure DealInfo where
  name : String
  id : Option Int
deriving DecidableEq

/-- The `SyncResult` dataclass (sync_service.py lines 14-44). -/
structure SyncResult where
  transcript_id : String
  transcript_title : Option String
  status : String
  reason : Option String := none
  interaction_id : Option Int := none
  company_id : Option Int := none
  contact_ids : List (Option Int) := []
  deal_ids : List (Option Int) := []
  found_contacts : List ContactInfo := []
  created_contacts : List ContactInfo := []
  found_deals : List DealInfo := []
  error : Option String := none
deriving DecidableEq

/-- The configuration values the engine reads (config.py). `internal_domains`
is stored lower-cased, as `Config.__init__` lower-cases it on load. -/
structure Config where
  internal_domains : List String
  transcript_limit : Nat
  max_retries : Nat
deriving DecidableEq

/-- The external world as seen by one pipeline pass: every CRM / Fireflies
operation the engine can invoke.  Write operations are modelled by their
outcome only (`createInteractionResult` is the `EntryId` of the created row
when `create_interaction` returns a truthy dict, `none` when it fails;
`updateSucceeds` is the truthiness of `update_interaction`'s result);
`transcripts` is the list the Fireflies `transcripts(limit:)` query draws
from. -/
structure Env where
  contactSearch : List String → List ContactRow
  createContact : String → Int → Option CreatedContact
  dealsByName : String → List DealRow
  dealsByCompany : Int → List DealRow
  interactionBySubject : String → Option Interaction
  createInteractionResult : Option (Option Int)
  updateSucceeds : Bool
  transcripts : List Transcript

/-! ## Formatting and note-completeness (sync_service.py lines 114-184) -/

/-- The content markers of `SyncService._has_incomplete_notes`
(sync_service.py line 132). -/
def content_markers : List String :=
  ["SUMMARY:", "DETAILED NOTES:", "ACTION ITEMS:", "KEY TOPICS:", "NOTES:", "OUTLINE:"]

/-- `SyncService._has_incomplete_notes` (sync_service.py lines 114-140):
empty / whitespace-only notes are incomplete, notes containing any marker are
complete, anything else is incomplete. -/
def has_incomplete_notes (notes : String) : Bool :=
  if notes.data.all isPySpace then true
  else if content_markers.any (fun m => strContains notes m) then false
  else true

/-- Python truthiness of an optional string. -/
def strTruthy : Option String → Bool
  | none => false
  | some s => !s.isEmpty

/-- Python truthiness of an optional list. -/
def listTruthy {α : Type} : Option (List α) → Bool
  | none => false
  | some l => !l.isEmpty

/-- The ordered section list of `SyncService.format_content`
(sync_service.py lines 151-182): overview, keywords, shorthand bullet, outline
(labelled OUTLINE when a shorthand bullet exists, NOTES otherwise), action
items. -/
def format_sections (s : Summary) : List String :=
  (if strTruthy s.overview then ["SUMMARY:\n" ++ s.overview.getD ""] else []) ++
  (if listTruthy s.keywords then ["KEY TOPICS:\n" ++ joinSep ", " (s.keywords.getD [])] else []) ++
  (if strTruthy s.shorthand_bullet then
    ["DETAILED NOTES:\n" ++ s.shorthand_bullet.getD ""] else []) ++
  (if strTruthy s.outline then
    [(if strTruthy s.shorthand_bullet then "OUTLINE:\n" else "NOTES:\n") ++ s.outline.getD ""]
   else []) ++
  (if listTruthy s.action_items then
    ["ACTION ITEMS:\n" ++
      joinSep "\n" ((s.action_items.getD []).map (fun item => "  • " ++ item))]
   else [])

/-- `SyncService.format_content` (sync_service.py lines 142-184). -/
def format_content : Option Summary → String
  | none => ""
  | some s => if (format_sections s).isEmpty then "" else joinSep "\n\n" (format_sections s)

/-! ## Participant split (sync_service.py lines 64-75, 212-215) -/

/-- `SyncService.is_internal_email` (sync_service.py lines 64-69). -/
def is_internal_email (cfg : Config) (email : String) : Bool :=
  if email.isEmpty then false
  else if !(email.data.contains '@') then false
  else cfg.internal_domains.contains
    (strLower (String.mk ((splitOnChar '@' email.data).getD 1 [])))

/-- `[p for p in all_participants if p and "@" in p]` (sync_service.py line 213). -/
def all_emails_of (t : Transcript) : List String :=
  (t.participants.getD []).filter (fun p => !p.isEmpty && p.data.contains '@')

/-- `[e for e in all_emails if not self.is_internal_email(e)]`
(sync_service.py line 214). -/
def external_emails (cfg : Config) (t : Transcript) : List String :=
  (all_emails_of t).filter (fun e => !is_internal_email cfg e)

/-! ## Entity resolution (sync_service.py lines 229-374) -/

/-- State of the contact loop (sync_service.py lines 233-272). -/
structure ContactScanState where
  company_id : Option Int := none
  contact_ids : List (Option Int) := []
  found_contacts : List ContactInfo := []
  found_emails : List String := []
deriving DecidableEq

/-- One iteration of the contact loop (sync_service.py lines 245-272): every
row records its lower-cased email; rows with a truthy, unseen `EntryId` are
appended, and the first such row with a non-empty Company list fixes the
contact-derived company. -/
def contact_scan_step (st : ContactScanState) (c : ContactRow) : ContactScanState :=
  let found_emails := insertSet st.found_emails (strLower c.email)
  if intTruthy c.entryId && !(st.contact_ids.contains c.entryId) then
    { company_id :=
        if !(intTruthy st.company_id) then
          match c.company with
          | [] => st.company_id
          | ref :: _ => ref.id
        else st.company_id
      contact_ids := st.contact_ids ++ [c.entryId]
      found_contacts := st.found_contacts ++ [{ email := c.email, name := c.name, id := c.entryId }]
      found_emails := found_emails }
  else { st with found_emails := found_emails }

/-- The contact-creation loop (sync_service.py lines 276-297): runs only when
a company id is truthy; failed creations are logged and dropped. -/
def create_missing_contacts (env : Env) (company_id : Option Int) (missing : List String) :
    List (Option Int) × List ContactInfo :=
  match company_id with
  | some cid =>
    if cid != 0 then
      missing.foldl
        (fun acc email =>
          match env.createContact email cid with
          | some nc =>
            (acc.1 ++ [nc.entryId],
             acc.2 ++ [{ email := email,
                         name := pyStrip (nc.firstName ++ " " ++ nc.lastName),
                         id := nc.entryId }])
          | none => acc)
        ([], [])
    else ([], [])
  | none => ([], [])

/-- State of the name-based deal loop (sync_service.py lines 306-343). -/
structure DealScanState where
  deal_ids : List (Option Int) := []
  found_deals : List DealInfo := []
  target_company_id : Option Int := none
  target_company_name : Option String := none
deriving DecidableEq

/-- One iteration of the name-based deal loop (sync_service.py lines 320-343):
deals with a truthy, unseen `EntryId` are appended, and the first such deal
with a company reference fixes the target company. -/
def deal_name_step (st : DealScanState) (d : DealRow) : DealScanState :=
  if intTruthy d.entryId && !(st.deal_ids.contains d.entryId) then
    let deal_ids := st.deal_ids ++ [d.entryId]
    let found_deals := st.found_deals ++ [{ name := d.dealName, id := d.entryId }]
    if !(intTruthy st.target_company_id) then
      match d.company with
      | .refs [] => { st with deal_ids := deal_ids, found_deals := found_deals }
      | .refs (ref :: _) =>
        { deal_ids := deal_ids, found_deals := found_deals,
          target_company_id := ref.id, target_company_name := some ref.name }
      | .single ref =>
        { deal_ids := deal_ids, found_deals := found_deals,
          target_company_id := ref.id, target_company_name := some ref.name }
    else { st with deal_ids := deal_ids, found_deals := found_deals }
  else st

/-- One iteration of the company-fallback deal loop (sync_service.py lines
352-364): same dedup-append, but never touches the target company. -/
def deal_company_step (st : List (Option Int) × List DealInfo) (d : DealRow) :
    List (Option Int) × List DealInfo :=
  if intTruthy d.entryId && !(st.1.contains d.entryId) then
    (st.1 ++ [d.entryId], st.2 ++ [{ name := d.dealName, id := d.entryId }])
  else st

/-- Everything `process_transcript` resolves before the create/skip/update
decision (sync_service.py lines 229-374). -/
structure Resolution where
  company_id : Option Int
  contact_ids : List (Option Int)
  found_contacts : List ContactInfo
  created_contacts : List ContactInfo
  deal_ids : List (Option Int)
  found_deals : List DealInfo
  target_company_id : Option Int
  final_company_id : Option Int
deriving DecidableEq

/-- Contact and deal resolution (sync_service.py lines 229-374).
`list(set(external_emails))` deduplicates in unspecified order; it is modelled
as first-occurrence deduplication.  The final company prefers the deal's
target company over the contact-derived one (line 372). -/
def resolve (env : Env) (cfg : Config) (t : Transcript) : Resolution :=
  let title := t.title.getD "Untitled"
  let unique_emails := (external_emails cfg t).eraseDups
  let contact_rows := env.contactSearch unique_emails
  let st := contact_rows.foldl contact_scan_step {}
  let missing_emails := unique_emails.filter (fun e => !(st.found_emails.contains (strLower e)))
  let created := create_missing_contacts env st.company_id missing_emails
  let contact_ids := st.contact_ids ++ created.1
  let dls :=
    match extract_project_name title with
    | some pn => (env.dealsByName pn).foldl deal_name_step {}
    | none => ({} : DealScanState)
  let deals :=
    if dls.deal_ids.isEmpty then
      match st.company_id with
      | some cid =>
        if cid != 0 then
          (env.dealsByCompany cid).foldl deal_company_step (dls.deal_ids, dls.found_deals)
        else (dls.deal_ids, dls.found_deals)
      | none => (dls.deal_ids, dls.found_deals)
    else (dls.deal_ids, dls.found_deals)
  { company_id := st.company_id
    contact_ids := contact_ids
    found_contacts := st.found_contacts
    created_contacts := created.2
    deal_ids := deals.1
    found_deals := deals.2
    target_company_id := dls.target_company_id
    final_company_id :=
      if intTruthy dls.target_company_id then dls.target_company_id else st.company_id }

/-- The abort test of sync_service.py line 377:
`not final_company_id and not contact_ids and not deal_ids`. -/
def resolution_empty (r : Resolution) : Bool :=
  !(intTruthy r.final_company_id) && r.contact_ids.isEmpty && r.deal_ids.isEmpty

/-! ## Interaction content (sync_service.py lines 386-419) -/

/-- `interaction_subject = f"Call: {title}"` (sync_service.py line 408). -/
def interaction_subject (t : Transcript) : String :=
  "Call: " ++ t.title.getD "Untitled"

/-- The fixed header of the interaction notes (sync_service.py lines 409-414). -/
def base_notes (t : Transcript) : String :=
  "Fireflies Call Recording\n\nDate: " ++ t.date.getD "Unknown" ++
  "\nDuration: " ++ toString (t.duration.getD 0) ++ " seconds\n\nParticipants:\n" ++
  joinSep "\n" (t.participants.getD [])

/-- The full interaction notes: header plus, when non-empty, the formatted
content (sync_service.py lines 416-417). -/
def interaction_notes (t : Transcript) : String :=
  let content := format_content t.summary
  if !content.isEmpty then base_notes t ++ "\n\n" ++ content else base_notes t

/-! ## The per-transcript pipeline (sync_service.py lines 186-542) -/

/-- Arguments of a `create_interaction` call (sync_service.py lines 500-506). -/
structure CreateArgs where
  subject : String
  notes : String
  contact_ids : List (Option Int)
  company_id : Option Int
  deal_ids : List (Option Int)
deriving DecidableEq

/-- Arguments of an `update_interaction` call (sync_service.py lines 439-445);
empty lists and falsy company ids are passed as `None`. -/
structure UpdateArgs where
  entry_id : Option Int
  notes : String
  contact_ids : Option (List (Option Int))
  company_id : Option Int
  deal_ids : Option (List (Option Int))
deriving DecidableEq

/-- The write calls a pipeline pass issued. -/
structure Effects where
  createCalled : Option CreateArgs := none
  updateCalled : Option UpdateArgs := none
deriving DecidableEq

/-- `SyncService.process_transcript` (sync_service.py lines 186-542): early
skip without external participants, resolution, abort when nothing links,
then the idempotency check against the existing interaction, ending in
created / updated / skipped / error.  The `except` clause (lines 535-542)
never fires here because the modelled environment is total. -/
def process_transcript (env : Env) (cfg : Config) (t : Transcript) : SyncResult × Effects :=
  let transcript_id := t.id.getD ""
  let title := t.title.getD "Untitled"
  if (external_emails cfg t).isEmpty then
    ({ transcript_id := transcript_id, transcript_title := some title, status := "skipped",
       reason := some "No external participants" }, {})
  else
    let r := resolve env cfg t
    if resolution_empty r then
      ({ transcript_id := transcript_id, transcript_title := some title, status := "skipped",
         reason := some "No company, contacts, or deals found to link interaction" }, {})
    else
      let content := format_content t.summary
      let notes := interaction_notes t
      match env.interactionBySubject (interaction_subject t) with
      | some existing =>
        let notes_incomplete := has_incomplete_notes (existing.notes.getD "")
        if notes_incomplete && !content.isEmpty then
          let args : UpdateArgs :=
            { entry_id := existing.entryId, notes := notes,
              contact_ids := if r.contact_ids.isEmpty then none else some r.contact_ids,
              company_id := if intTruthy r.final_company_id then r.final_company_id else none,
              deal_ids := if r.deal_ids.isEmpty then none else some r.deal_ids }
          if env.updateSucceeds then
            ({ transcript_id := transcript_id, transcript_title := some title,
               status := "updated",
               reason := some "Notes backfilled (Fireflies summary now available)",
               interaction_id := existing.entryId, company_id := r.final_company_id,
               contact_ids := r.contact_ids, deal_ids := r.deal_ids,
               found_contacts := r.found_contacts, created_contacts := r.created_contacts,
               found_deals := r.found_deals },
             { updateCalled := some args })
          else
            ({ transcript_id := transcript_id, transcript_title := some title,
               status := "error",
               error := some "Failed to update interaction with backfilled notes",
               interaction_id := existing.entryId, company_id := r.final_company_id,
               contact_ids := r.contact_ids, deal_ids := r.deal_ids },
             { updateCalled := some args })
        else
          ({ transcript_id := transcript_id, transcript_title := some title,
             status := "skipped",
             reason := some (if !notes_incomplete then "Interaction already exists"
                             else "Interaction exists, Fireflies summary still pending"),
             interaction_id := existing.entryId, company_id := r.final_company_id,
             contact_ids := r.contact_ids, deal_ids := r.deal_ids,
             created_contacts := r.created_contacts }, {})
      | none =>
        let cargs : CreateArgs :=
          { subject := interaction_subject t, notes := notes, contact_ids := r.contact_ids,
            company_id := r.final_company_id, deal_ids := r.deal_ids }
        match env.createInteractionResult with
        | some newId =>
          ({ transcript_id := transcript_id, transcript_title := some title,
             status := "created",
             interaction_id := newId, company_id := r.final_company_id,
             contact_ids := r.contact_ids, deal_ids := r.deal_ids,
             found_contacts := r.found_contacts, created_contacts := r.created_contacts,
             found_deals := r.found_deals },
           { createCalled := some cargs })
        | none =>
          ({ transcript_id := transcript_id, transcript_title := some title,
             status := "error",
             error := some "Failed to create interaction",
             company_id := r.final_company_id, created_contacts := r.created_contacts },
           { createCalled := some cargs })

/-! ## The run controller (sync_service.py lines 544-626; fireflies_client.py
lines 56-68; app.py lines 164-255) -/

/-- `FirefliesClient.fetch_transcripts`'s effective limit:
`limit = limit or config.TRANSCRIPT_LIMIT` (fireflies_client.py line 66). -/
def fetch_transcripts_limit (cfg : Config) (limit : Option Nat) : Nat :=
  match limit with
  | some l => if l = 0 then cfg.transcript_limit else l
  | none => cfg.transcript_limit

/-- The transcripts a `sync_all` run fetches: the source's recency-ordered
stream truncated by the GraphQL `limit` variable.  `sync_all` passes its
caller-supplied limit straight through (sync_service.py line 570). -/
def sync_all_fetched (env : Env) (cfg : Config) (limit : Option Nat) : List Transcript :=
  env.transcripts.take (fetch_transcripts_limit cfg limit)

/-- The limit the `/api/sync` (and `/api/sync/blocking`, `/api/sync/backfill`)
endpoints pass into the run: `limit = min(limit or TRANSCRIPT_LIMIT, 500)`
(app.py lines 181-182). -/
def trigger_sync_limit (cfg : Config) (req : Option Nat) : Nat :=
  min (match req with
       | some l => if l = 0 then cfg.transcript_limit else l
       | none => cfg.transcript_limit) 500

/-- The summary dict of a non-empty `sync_all` run (sync_service.py lines
614-626). -/
structure RunSummary where
  success : Bool
  transcripts_fetched : Nat
  processed_count : Nat
  created_count : Nat
  updated_count : Nat
  skipped_count : Nat
  error_count : Nat
  contacts_created : Nat
  results : List SyncResult
deriving DecidableEq

/-- `sync_all` either returns the zero-processed summary (lines 572-579) or a
full summary. -/
inductive SyncAllOutput where
  | empty
  | full (s : RunSummary)
deriving DecidableEq

/-- `SyncService.sync_all` (sync_service.py lines 544-626): fetch, filter
already-processed ids, process sequentially, aggregate counts.  The model
holds the external world fixed across the run's transcripts; the counting
invariants do not depend on that. -/
def sync_all (env : Env) (cfg : Config) (processed_ids : List String) (limit : Option Nat) :
    SyncAllOutput :=
  let transcripts := sync_all_fetched env cfg limit
  if transcripts.isEmpty then .empty
  else
    let new_transcripts := transcripts.filter
      (fun t => !(match t.id with
                  | some i => processed_ids.contains i
                  | none => false))
    let results := new_transcripts.map (fun t => (process_transcript env cfg t).1)
    .full
      { success := true
        transcripts_fetched := transcripts.length
        processed_count := results.length
        created_count := results.countP (fun r => r.status == "created")
        updated_count := results.countP (fun r => r.status == "updated")
        skipped_count := results.countP (fun r => r.status == "skipped")
        error_count := results.countP (fun r => r.status == "error")
        contacts_created := (results.map (fun r => r.created_contacts.length)).sum
        results := results }

/-! ## The DealCloud query cache (dealcloud_client.py lines 40-41, 131-191) -/

/-- Terminal outcome of the underlying contact query, after any 429 replays:
a successful response, a non-ok HTTP status, or a request exception.  All
three store into the cache (dealcloud_client.py lines 178, 185, 190). -/
inductive ServerReply where
  | ok : List ContactRow → ServerReply
  | httpErr
  | exn
deriving DecidableEq

/-- Lexicographic code-point order on strings, as Python `sorted` compares. -/
def charListLe : List Char → List Char → Bool
  | [], _ => true
  | _ :: _, [] => false
  | a :: as, b :: bs => if a = b then charListLe as bs else decide (a.val < b.val)

/-- Stable insertion of a string into an ascending list. -/
def insertSorted (x : String) : List String → List String
  | [] => [x]
  | y :: ys => if charListLe y.data x.data then y :: insertSorted x ys else x :: y :: ys

/-- Python `sorted(emails)`: ascending code-point order (insertion sort; for a
total order on strings the result agrees with any sort). -/
def sortedEmails : List String → List String
  | [] => []
  | x :: xs => insertSorted x (sortedEmails xs)

/-- `cache_key = f"contacts:{','.join(sorted(emails))}"`
(dealcloud_client.py line 152): sorted and comma-joined, with no lower-casing. -/
def contacts_cache_key (emails : List String) : String :=
  "contacts:" ++ joinSep "," (sortedEmails emails)

/-- First-match lookup in the cache dict. -/
def cacheLookup (cache : List (String × List ContactRow)) (k : String) :
    Option (List ContactRow) :=
  match cache.find? (fun kv => kv.1 == k) with
  | some kv => some kv.2
  | none => none

/-- `DealCloudClient.search_contacts_by_email` (dealcloud_client.py lines
138-191) against a cache: empty input answers `[]` without a query; a cache
hit answers without a query; otherwise one underlying query is issued and its
result (or `[]` on error) is stored.  Returns (rows, new cache, number of
underlying queries issued). -/
def search_contacts_by_email (server : List String → ServerReply)
    (cache : List (String × List ContactRow)) (emails : List String) :
    List ContactRow × List (String × List ContactRow) × Nat :=
  if emails.isEmpty then ([], cache, 0)
  else
    let key := contacts_cache_key emails
    match cacheLookup cache key with
    | some rows => (rows, cache, 0)
    | none =>
      match server emails with
      | .ok rows => (rows, (key, rows) :: cache, 1)
      | .httpErr => ([], (key, []) :: cache, 1)
      | .exn => ([], (key, []) :: cache, 1)

/-! ## 429 handling (dealcloud_client.py lines 119-129 and the
`if self._handle_rate_limit(response): return self.<op>(<same args>)` pattern
at lines 173-174, 238-239, 303-304, 377-378, 446-447, 501-502) -/

/-- Response classes relevant to the replay pattern. -/
inductive HttpResp where
  | rateLimited : Option Nat → HttpResp
  | success
  | failure
deriving DecidableEq

/-- `retry_after = int(response.headers.get("Retry-After", 3))`
(dealcloud_client.py line 125). -/
def handle_rate_limit_sleep (retryAfter : Option Nat) : Nat := retryAfter.getD 3

/-- The call-site replay loop: each attempt consumes the next response of the
stream; a 429 sleeps and re-issues the identical operation; any other
response ends the loop.  Returns the sleeps performed and the terminating
response, or `none` when every provided response is a 429 — i.e. the
recursion is still running when the stream is exhausted. -/
def run429 : List HttpResp → Option (List Nat × HttpResp)
  | [] => none
  | .rateLimited ra :: rest =>
    (run429 rest).map (fun p => (handle_rate_limit_sleep ra :: p.1, p.2))
  | .success :: _ => some ([], .success)
  | .failure :: _ => some ([], .failure)

/-! ## Concrete instances used to witness the theorems -/

/-- The config defaults of config.py (INTERNAL_DOMAINS, TRANSCRIPT_LIMIT,
MAX_RETRIES). -/
def cfg0 : Config :=
  { internal_domains := ["valescoind.com", "gmail.com", "outlook.com", "yahoo.com"]
    transcript_limit := 10
    max_retries := 3 }

/-- A transcript with one internal and one external participant and a
summary. -/
def t0 : Transcript :=
  { id := some "T1"
    title := some "Project Rubicon - SPP Discussion"
    date := some "2024-01-01"
    duration := some 1800
    participants := some ["alice@valescoind.com", "bob@nec.example"]
    summary := some { overview := some "Deal discussion.", shorthand_bullet := none,
                      outline := none, action_items := none, keywords := none } }

/-- Like `t0`, with a second external participant unknown to the CRM. -/
def t1 : Transcript :=
  { t0 with participants := some ["alice@valescoind.com", "bob@nec.example",
                                  "carol@nec.example"] }

/-- A contact row whose company is the banker's firm (id 5). -/
def crow : ContactRow :=
  { entryId := some 11, email := "bob@nec.example", name := "Bob",
    company := [{ id := some 5, name := "Advisor LLC" }] }

/-- A deal row whose own company is the target (id 9). -/
def drow : DealRow :=
  { entryId := some 21, dealName := "Project Rubicon",
    company := .refs [{ id := some 9, name := "NEC Inc." }] }

/-- A CRM where the contact search finds `crow`, the deal search finds `drow`,
no interaction exists yet, and both writes succeed. -/
def envBase : Env :=
  { contactSearch := fun _ => [crow]
    createContact := fun _ _ => some { entryId := some 12, firstName := "Carol",
                                       lastName := "Contact" }
    dealsByName := fun _ => [drow]
    dealsByCompany := fun _ => []
    interactionBySubject := fun _ => none
    createInteractionResult := some (some 31)
    updateSucceeds := true
    transcripts := [] }

/-- `envBase` with a failing `create_interaction`. -/
def envCreateFails : Env :=
  { envBase with createInteractionResult := none }

/-- `envBase` holding one transcript, for run-controller witnesses. -/
def envRun : Env := { envBase with transcripts := [t0] }

/-- A source holding 501 transcripts. -/
def env501 : Env := { envBase with transcripts := List.replicate 501 t0 }

/-- The effective state before a second run whose interaction lookup actually
reflects the CRM: run 1 created the interaction, and the subject now resolves
to the stored row, everything else unchanged.  This is the situation only
when the DealCloud client's query cache was cleared between the two runs (as
`sync_all` does at run start, sync_service.py line 566) or the second run
happens in a fresh process.  A same-process `sync_transcript` pair instead
hits the cached run-1 miss — see `search_interaction_by_subject` and
`sync_transcript_twice` below. -/
def created_env (env : Env) (subj : String) (rid : Option Int) (notes : String) : Env :=
  { env with
    interactionBySubject := fun s =>
      if s = subj then some { entryId := rid, notes := some notes }
      else env.interactionBySubject s }

/-- A contact server that answers every query with an empty, successful row
set. -/
def serverOkEmpty : List String → ServerReply := fun _ => ServerReply.ok []

/-- Projection of the `transcripts_fetched` count out of a run summary. -/
def run_transcripts_fetched : SyncAllOutput → Option Nat
  | .empty => none
  | .full s => some s.transcripts_fetched

/-- `cache_key = f"interaction:{subject}"` (dealcloud_client.py line 283). -/
def interaction_cache_key (subject : String) : String := "interaction:" ++ subject

/-- `DealCloudClient.search_interaction_by_subject` (dealcloud_client.py lines
273-327) against the client's persistent cache.  Line 284 tests key
membership, not truthiness, so a stored `None` (a previous miss) is a cache
hit and is returned as-is; on a miss the CRM is queried and the result —
`None` included, whether from zero rows, a non-ok status or an exception
(lines 308, 321, 326) — is stored under the key.  `server` is the CRM's
terminal answer after any 429 replays.  Returns (result, new cache). -/
def search_interaction_by_subject (server : String → Option Interaction)
    (cache : List (String × Option Interaction)) (subject : String) :
    Option Interaction × List (String × Option Interaction) :=
  let key := interaction_cache_key subject
  match cache.find? (fun kv => kv.1 == key) with
  | some kv => (kv.2, cache)
  | none =>
    match server subject with
    | some existing => (some existing, (key, some existing) :: cache)
    | none => (none, (key, none) :: cache)

/-- The interaction row the CRM stores when run 1's create succeeds for `t0`. -/
def createdRow0 : Interaction := { entryId := some 31, notes := some (interaction_notes t0) }

/-- Two same-process `sync_transcript` invocations on the same transcript
(sync_service.py lines 628-654).  `sync_transcript` never calls `clear_cache`
(only `sync_all` does, line 566), so the client cache survives from run 1
into run 2.  Run 1 starts from the process's empty cache and its interaction
lookup reaches the CRM (`env.interactionBySubject`); when run 1 issues a
create, the CRM afterwards holds `createdRow` under the subject; run 2's
lookup goes through the cache left by run 1.  The resolution searches of run
2 reuse `env` unchanged, which is exactly what the cached contact/deal
queries serve in a same-process second run. -/
def sync_transcript_twice (env : Env) (cfg : Config) (t : Transcript)
    (createdRow : Interaction) : (SyncResult × Effects) × (SyncResult × Effects) :=
  let subject := interaction_subject t
  let l1 := search_interaction_by_subject env.interactionBySubject [] subject
  let out1 := process_transcript
    { env with interactionBySubject := fun s =>
        if s = subject then l1.1 else env.interactionBySubject s } cfg t
  let crm2 : String → Option Interaction := fun s =>
    if s = subject ∧ out1.2.createCalled.isSome then some createdRow
    else env.interactionBySubject s
  let l2 := search_interaction_by_subject crm2 l1.2 subject
  let out2 := process_transcript
    { env with interactionBySubject := fun s =>
        if s = subject then l2.1 else env.interactionBySubject s } cfg t
  (out1, out2)

/-! # Helper lemmas -/

theorem isPrefixOf_self_append (l r : List Char) : l.isPrefixOf (l ++ r) = true := by
  induction l with
  | nil => simp [List.isPrefixOf]
  | cons a as ih => simp [List.isPrefixOf, ih]

theorem listContainsSub_self (n b : List Char) : listContainsSub (n ++ b) n = true := by
  unfold listContainsSub
  apply List.any_eq_true.mpr
  refine ⟨0, ?_, ?_⟩
  · simp
  · simp [isPrefixOf_self_append]

theorem listContainsSub_cons (c : Char) (l n : List Char)
    (h : listContainsSub l n = true) : listContainsSub (c :: l) n = true := by
  unfold listContainsSub at h ⊢
  obtain ⟨i, hi, hp⟩ := List.any_eq_true.mp h
  apply List.any_eq_true.mpr
  refine ⟨i + 1, ?_, ?_⟩
  · simp only [List.mem_range, List.length_cons] at hi ⊢
    omega
  · simpa using hp

theorem listContainsSub_append_left (x l n : List Char)
    (h : listContainsSub l n = true) : listContainsSub (x ++ l) n = true := by
  induction x with
  | nil => simpa using h
  | cons c cs ih => simpa using listContainsSub_cons c (cs ++ l) n ih

theorem strContains_append_mid (a m b : String) : strContains (a ++ (m ++ b)) m = true := by
  unfold strContains
  have hdata : (a ++ (m ++ b)).data = a.data ++ (m.data ++ b.data) := by
    simp [String.data_append]
  rw [hdata]
  exact listContainsSub_append_left a.data (m.data ++ b.data) m.data
    (listContainsSub_self m.data b.data)

theorem joinSep_cons_eq (sep a : String) (l : List String) :
    ∃ u, joinSep sep (a :: l) = a ++ u := by
  cases l with
  | nil => exact ⟨"", by simp [joinSep]⟩
  | cons b bs =>
    exact ⟨sep ++ joinSep sep (b :: bs), by simp [joinSep, String.append_assoc]⟩

theorem notSpace_append (a b : String) (h : a.data.all isPySpace = false) :
    (a ++ b).data.all isPySpace = false := by
  simp only [String.data_append, List.all_append, h, Bool.false_and]

theorem base_notes_not_space (t : Transcript) : (base_notes t).data.all isPySpace = false := by
  unfold base_notes
  apply notSpace_append
  apply notSpace_append
  apply notSpace_append
  apply notSpace_append
  apply notSpace_append
  decide

theorem append_split (p q r body : String) (h : p ++ q = r) : r ++ body = p ++ (q ++ body) := by
  rw [← h, String.append_assoc]

/-- Every formatted section begins with one of the content markers. -/
theorem sections_marker (s : Summary) :
    ∀ x ∈ format_sections s, ∃ m u, m ∈ content_markers ∧ x = m ++ u := by
  intro x hx
  simp only [format_sections, List.mem_append] at hx
  rcases hx with ((((hx | hx) | hx) | hx) | hx)
  · split at hx
    · simp only [List.mem_singleton] at hx
      refine ⟨"SUMMARY:", "\n" ++ s.overview.getD "", by simp [content_markers], ?_⟩
      rw [hx]
      exact append_split "SUMMARY:" "\n" "SUMMARY:\n" _ (by decide)
    · simp at hx
  · split at hx
    · simp only [List.mem_singleton] at hx
      refine ⟨"KEY TOPICS:", "\n" ++ joinSep ", " (s.keywords.getD []),
        by simp [content_markers], ?_⟩
      rw [hx]
      exact append_split "KEY TOPICS:" "\n" "KEY TOPICS:\n" _ (by decide)
    · simp at hx
  · split at hx
    · simp only [List.mem_singleton] at hx
      refine ⟨"DETAILED NOTES:", "\n" ++ s.shorthand_bullet.getD "",
        by simp [content_markers], ?_⟩
      rw [hx]
      exact append_split "DETAILED NOTES:" "\n" "DETAILED NOTES:\n" _ (by decide)
    · simp at hx
  · split at hx
    · simp only [List.mem_singleton] at hx
      by_cases hsb : strTruthy s.shorthand_bullet = true
      · refine ⟨"OUTLINE:", "\n" ++ s.outline.getD "", by simp [content_markers], ?_⟩
        rw [hx, if_pos hsb]
        exact append_split "OUTLINE:" "\n" "OUTLINE:\n" _ (by decide)
      · refine ⟨"NOTES:", "\n" ++ s.outline.getD "", by simp [content_markers], ?_⟩
        rw [hx, if_neg hsb]
        exact append_split "NOTES:" "\n" "NOTES:\n" _ (by decide)
    · simp at hx
  · split at hx
    · simp only [List.mem_singleton] at hx
      refine ⟨"ACTION ITEMS:",
        "\n" ++ joinSep "\n" ((s.action_items.getD []).map (fun item => "  • " ++ item)),
        by simp [content_markers], ?_⟩
      rw [hx]
      exact append_split "ACTION ITEMS:" "\n" "ACTION ITEMS:\n" _ (by decide)
    · simp at hx

/-- When the current pass has non-empty formatted content, the notes the
pipeline assembles contain a content marker, so `_has_incomplete_notes`
judges them complete. -/
theorem incomplete_false_of_content (t : Transcript)
    (hc : (format_content t.summary).isEmpty = false) :
    has_incomplete_notes (interaction_notes t) = false := by
  cases hs : t.summary with
  | none =>
    rw [hs] at hc
    exact absurd hc (by decide)
  | some s =>
    cases hsec : format_sections s with
    | nil =>
      rw [hs, show format_content (some s) = "" by simp [format_content, hsec]] at hc
      exact absurd hc (by decide)
    | cons x xs =>
      obtain ⟨m, u, hm, hx⟩ :=
        sections_marker s x (by rw [hsec]; exact List.mem_cons_self x xs)
      obtain ⟨v, hv⟩ := joinSep_cons_eq "\n\n" x xs
      have hcontent : format_content t.summary = (m ++ u) ++ v := by
        rw [hs]
        show (if (format_sections s).isEmpty then "" else joinSep "\n\n" (format_sections s)) = _
        rw [hsec]
        simp only [List.isEmpty_cons, Bool.false_eq_true, if_false]
        rw [hv, hx]
      have hc3 : ((m ++ u) ++ v).isEmpty = false := by rw [← hcontent]; exact hc
      have hnotes : interaction_notes t = base_notes t ++ "\n\n" ++ ((m ++ u) ++ v) := by
        unfold interaction_notes
        rw [hcontent]
        simp only [hc3, Bool.not_false, if_true]
      rw [hnotes]
      unfold has_incomplete_notes
      have h1 : (base_notes t ++ "\n\n" ++ ((m ++ u) ++ v)).data.all isPySpace = false := by
        apply notSpace_append
        apply notSpace_append
        exact base_notes_not_space t
      have h2 : content_markers.any
          (fun mk => strContains (base_notes t ++ "\n\n" ++ ((m ++ u) ++ v)) mk) = true := by
        apply List.any_eq_true.mpr
        refine ⟨m, hm, ?_⟩
        have hshape : base_notes t ++ "\n\n" ++ ((m ++ u) ++ v) =
            (base_notes t ++ "\n\n") ++ (m ++ (u ++ v)) := by
          rw [String.append_assoc m u v]
        rw [hshape]
        exact strContains_append_mid (base_notes t ++ "\n\n") m (u ++ v)
      simp only [h1, h2, Bool.false_eq_true, if_false, if_true]

/-- `resolve` never consults the interaction search, so updating that part of
the environment leaves resolution unchanged. -/
theorem resolve_created_env (env : Env) (cfg : Config) (t : Transcript)
    (subj : String) (rid : Option Int) (notes : String) :
    resolve (created_env env subj rid notes) cfg t = resolve env cfg t := rfl

theorem bool_eq_false_of_ne_true {b : Bool} (h : ¬ b = true) : b = false := by
  cases b
  · rfl
  · exact absurd rfl h

/-- Branch characterization: no external participants (sync_service.py lines
220-227). -/
theorem process_skip_no_external (env : Env) (cfg : Config) (t : Transcript)
    (hext : (external_emails cfg t).isEmpty = true) :
    process_transcript env cfg t =
      ({ transcript_id := t.id.getD "", transcript_title := some (t.title.getD "Untitled"),
         status := "skipped", reason := some "No external participants" }, {}) := by
  simp only [process_transcript, hext, if_true]

/-- Branch characterization: nothing to link the interaction to
(sync_service.py lines 377-384). -/
theorem process_skip_no_links (env : Env) (cfg : Config) (t : Transcript)
    (hext : (external_emails cfg t).isEmpty = false)
    (hlink : resolution_empty (resolve env cfg t) = true) :
    process_transcript env cfg t =
      ({ transcript_id := t.id.getD "", transcript_title := some (t.title.getD "Untitled"),
         status := "skipped",
         reason := some "No company, contacts, or deals found to link interaction" }, {}) := by
  simp only [process_transcript, hext, hlink, Bool.false_eq_true, if_false, if_true]

/-- Branch characterization: existing interaction with incomplete notes,
non-empty content, update succeeds (sync_service.py lines 434-461). -/
theorem process_backfill_eq (env : Env) (cfg : Config) (t : Transcript) (existing : Interaction)
    (hext : (external_emails cfg t).isEmpty = false)
    (hlink : resolution_empty (resolve env cfg t) = false)
    (hfound : env.interactionBySubject (interaction_subject t) = some existing)
    (hinc : has_incomplete_notes (existing.notes.getD "") = true)
    (hcontent : (format_content t.summary).isEmpty = false)
    (hupd : env.updateSucceeds = true) :
    process_transcript env cfg t =
      ({ transcript_id := t.id.getD "", transcript_title := some (t.title.getD "Untitled"),
         status := "updated",
         reason := some "Notes backfilled (Fireflies summary now available)",
         interaction_id := existing.entryId,
         company_id := (resolve env cfg t).final_company_id,
         contact_ids := (resolve env cfg t).contact_ids,
         deal_ids := (resolve env cfg t).deal_ids,
         found_contacts := (resolve env cfg t).found_contacts,
         created_contacts := (resolve env cfg t).created_contacts,
         found_deals := (resolve env cfg t).found_deals },
       { updateCalled := some
          { entry_id := existing.entryId, notes := interaction_notes t,
            contact_ids := if (resolve env cfg t).contact_ids.isEmpty then none
                           else some (resolve env cfg t).contact_ids,
            company_id := if intTruthy (resolve env cfg t).final_company_id then
                            (resolve env cfg t).final_company_id else none,
            deal_ids := if (resolve env cfg t).deal_ids.isEmpty then none
                        else some (resolve env cfg t).deal_ids } }) := by
  simp only [process_transcript, hext, hlink, Bool.false_eq_true, if_false, hfound,
    hinc, hcontent, hupd, Bool.not_false, Bool.and_self, if_true]

/-- Branch characterization: backfill attempted but the update call fails
(sync_service.py lines 462-473). -/
theorem process_update_fail_eq (env : Env) (cfg : Config) (t : Transcript)
    (existing : Interaction)
    (hext : (external_emails cfg t).isEmpty = false)
    (hlink : resolution_empty (resolve env cfg t) = false)
    (hfound : env.interactionBySubject (interaction_subject t) = some existing)
    (hinc : has_incomplete_notes (existing.notes.getD "") = true)
    (hcontent : (format_content t.summary).isEmpty = false)
    (hupd : env.updateSucceeds = false) :
    process_transcript env cfg t =
      ({ transcript_id := t.id.getD "", transcript_title := some (t.title.getD "Untitled"),
         status := "error",
         error := some "Failed to update interaction with backfilled notes",
         interaction_id := existing.entryId,
         company_id := (resolve env cfg t).final_company_id,
         contact_ids := (resolve env cfg t).contact_ids,
         deal_ids := (resolve env cfg t).deal_ids },
       { updateCalled := some
          { entry_id := existing.entryId, notes := interaction_notes t,
            contact_ids := if (resolve env cfg t).contact_ids.isEmpty then none
                           else some (resolve env cfg t).contact_ids,
            company_id := if intTruthy (resolve env cfg t).final_company_id then
                            (resolve env cfg t).final_company_id else none,
            deal_ids := if (resolve env cfg t).deal_ids.isEmpty then none
                        else some (resolve env cfg t).deal_ids } }) := by
  simp only [process_transcript, hext, hlink, Bool.false_eq_true, if_false, hfound,
    hinc, hcontent, hupd, Bool.not_false, Bool.and_self, if_true]

/-- Branch characterization: existing interaction, no backfill condition
(sync_service.py lines 474-490). -/
theorem process_skip_existing_eq (env : Env) (cfg : Config) (t : Transcript)
    (existing : Interaction)
    (hext : (external_emails cfg t).isEmpty = false)
    (hlink : resolution_empty (resolve env cfg t) = false)
    (hfound : env.interactionBySubject (interaction_subject t) = some existing)
    (hcond : (has_incomplete_notes (existing.notes.getD "") &&
      !(format_content t.summary).isEmpty) = false) :
    process_transcript env cfg t =
      ({ transcript_id := t.id.getD "", transcript_title := some (t.title.getD "Untitled"),
         status := "skipped",
         reason := some (if !has_incomplete_notes (existing.notes.getD "") then
                           "Interaction already exists"
                         else "Interaction exists, Fireflies summary still pending"),
         interaction_id := existing.entryId,
         company_id := (resolve env cfg t).final_company_id,
         contact_ids := (resolve env cfg t).contact_ids,
         deal_ids := (resolve env cfg t).deal_ids,
         created_contacts := (resolve env cfg t).created_contacts }, {}) := by
  simp only [process_transcript, hext, hlink, Bool.false_eq_true, if_false, hfound,
    hcond, if_true]

/-- Branch characterization: new interaction created (sync_service.py lines
492-524). -/
theorem process_create_some_eq (env : Env) (cfg : Config) (t : Transcript) (rid : Option Int)
    (hext : (external_emails cfg t).isEmpty = false)
    (hlink : resolution_empty (resolve env cfg t) = false)
    (hnone : env.interactionBySubject (interaction_subject t) = none)
    (hcreate : env.createInteractionResult = some rid) :
    process_transcript env cfg t =
      ({ transcript_id := t.id.getD "", transcript_title := some (t.title.getD "Untitled"),
         status := "created",
         interaction_id := rid,
         company_id := (resolve env cfg t).final_company_id,
         contact_ids := (resolve env cfg t).contact_ids,
         deal_ids := (resolve env cfg t).deal_ids,
         found_contacts := (resolve env cfg t).found_contacts,
         created_contacts := (resolve env cfg t).created_contacts,
         found_deals := (resolve env cfg t).found_deals },
       { createCalled := some
          { subject := interaction_subject t, notes := interaction_notes t,
            contact_ids := (resolve env cfg t).contact_ids,
            company_id := (resolve env cfg t).final_company_id,
            deal_ids := (resolve env cfg t).deal_ids } }) := by
  simp only [process_transcript, hext, hlink, Bool.false_eq_true, if_false, hnone, hcreate]

/-- Branch characterization: interaction creation fails (sync_service.py lines
525-533). -/
theorem process_create_none_eq (env : Env) (cfg : Config) (t : Transcript)
    (hext : (external_emails cfg t).isEmpty = false)
    (hlink : resolution_empty (resolve env cfg t) = false)
    (hnone : env.interactionBySubject (interaction_subject t) = none)
    (hfail : env.createInteractionResult = none) :
    process_transcript env cfg t =
      ({ transcript_id := t.id.getD "", transcript_title := some (t.title.getD "Untitled"),
         status := "error",
         error := some "Failed to create interaction",
         company_id := (resolve env cfg t).final_company_id,
         created_contacts := (resolve env cfg t).created_contacts },
       { createCalled := some
          { subject := interaction_subject t, notes := interaction_notes t,
            contact_ids := (resolve env cfg t).contact_ids,
            company_id := (resolve env cfg t).final_company_id,
            deal_ids := (resolve env cfg t).deal_ids } }) := by
  simp only [process_transcript, hext, hlink, Bool.false_eq_true, if_false, hnone, hfail]

/-- Every pipeline outcome carries one of the four statuses. -/
theorem process_status_mem (env : Env) (cfg : Config) (t : Transcript) :
    (process_transcript env cfg t).1.status = "created" ∨
    (process_transcript env cfg t).1.status = "updated" ∨
    (process_transcript env cfg t).1.status = "skipped" ∨
    (process_transcript env cfg t).1.status = "error" := by
  by_cases h1 : (external_emails cfg t).isEmpty = true
  · rw [process_skip_no_external env cfg t h1]
    simp
  · have h1' := bool_eq_false_of_ne_true h1
    by_cases h2 : resolution_empty (resolve env cfg t) = true
    · rw [process_skip_no_links env cfg t h1' h2]
      simp
    · have h2' := bool_eq_false_of_ne_true h2
      cases h3 : env.interactionBySubject (interaction_subject t) with
      | none =>
        cases h4 : env.createInteractionResult with
        | some rid =>
          rw [process_create_some_eq env cfg t rid h1' h2' h3 h4]
          simp
        | none =>
          rw [process_create_none_eq env cfg t h1' h2' h3 h4]
          simp
      | some ex =>
        by_cases h4 : (has_incomplete_notes (ex.notes.getD "") &&
            !(format_content t.summary).isEmpty) = true
        · have hinc := ((Bool.and_eq_true _ _).mp h4).1
          have hcontent : (format_content t.summary).isEmpty = false := by
            have := ((Bool.and_eq_true _ _).mp h4).2
            cases hfc : (format_content t.summary).isEmpty
            · rfl
            · rw [hfc] at this
              exact absurd this (by decide)
          by_cases h5 : env.updateSucceeds = true
          · rw [process_backfill_eq env cfg t ex h1' h2' h3 hinc hcontent h5]
            simp
          · rw [process_update_fail_eq env cfg t ex h1' h2' h3 hinc hcontent
              (bool_eq_false_of_ne_true h5)]
            simp
        · rw [process_skip_existing_eq env cfg t ex h1' h2' h3 (bool_eq_false_of_ne_true h4)]
          simp

/-- The four status counts of a list whose members all carry one of the four
statuses partition its length. -/
theorem countP_status_partition (l : List SyncResult)
    (h : ∀ r ∈ l, r.status = "created" ∨ r.status = "updated" ∨
      r.status = "skipped" ∨ r.status = "error") :
    l.countP (fun r => r.status == "created") + l.countP (fun r => r.status == "updated") +
      l.countP (fun r => r.status == "skipped") + l.countP (fun r => r.status == "error") =
      l.length := by
  induction l with
  | nil => simp
  | cons r rs ih =>
    have hr := h r (List.mem_cons_self r rs)
    have hrs := ih (fun x hx => h x (List.mem_cons_of_mem r hx))
    rcases hr with h1 | h1 | h1 | h1 <;>
      simp only [List.countP_cons, List.length_cons, h1] <;>
      simp <;> omega


/-! # Claim theorems -/

/-- C8: `extract_project_name` maps "Project Rubicon - SPP Discussion" to
"Project Rubicon", "Honey - Pro Forma EBITDA" to "Honey", and
"Weekly Internal Sync" to no project name. -/
theorem c8_project_name_extraction :
    extract_project_name "Project Rubicon - SPP Discussion" = some "Project Rubicon" ∧
    extract_project_name "Honey - Pro Forma EBITDA" = some "Honey" ∧
    extract_project_name "Weekly Internal Sync" = none :=
  ⟨by decide, by decide, by decide⟩

/-- C7: evaluation of `extract_project_name` at the failing input
"DME Opportunity: Valesco <> GCA".  The claim (and the function's own
docstring, sync_service.py line 85) says the result is no project name, but
pattern 2 matches the two leading capitalized words before the colon and the
stoplist does not contain "dme opportunity", so the code returns
"DME Opportunity". -/
theorem c7_dme_opportunity_behavior :
    extract_project_name "DME Opportunity: Valesco <> GCA" = some "DME Opportunity" := by
  decide

/-- C4 counterexample: the 429 replay recursion is not bounded.  Against a
server that answers 429 on every attempt the operation never completes (four
provided responses, all consumed, no result), and when a success arrives only
after four 429s the client has retried four times — more than the configured
MAX_RETRIES bound (3) the claim says caps the recursion. -/
theorem c4_unbounded_counterexample :
    run429 (List.replicate 4 (HttpResp.rateLimited none)) = none ∧
    (run429 (List.replicate 4 (HttpResp.rateLimited none) ++ [HttpResp.success])).map
      (fun p => p.1.length) = some 4 ∧
    ¬ (4 ≤ cfg0.max_retries) :=
  ⟨by decide, by decide, by decide⟩

/-- C4 (amended): on each 429 the client sleeps for the Retry-After duration
(default 3 when the header is absent) and re-issues the same logical
operation once per occurrence, with no cap: the replay terminates exactly
when some attempt returns a non-429 response, and under a server that
answers 429 on every attempt it never terminates. -/
theorem c4_retry_replay_amended :
    (∀ ras : List (Option Nat),
      run429 (ras.map HttpResp.rateLimited ++ [HttpResp.success]) =
        some (ras.map handle_rate_limit_sleep, HttpResp.success)) ∧
    (∀ ras : List (Option Nat), run429 (ras.map HttpResp.rateLimited) = none) := by
  constructor
  · intro ras
    induction ras with
    | nil => rfl
    | cons a as ih => simp [run429, ih]
  · intro ras
    induction ras with
    | nil => rfl
    | cons a as ih => simp [run429, ih]

/-- C5 counterexample: the contact cache key sorts but does not lower-case.
The email lists ["A@x.com"] and ["a@x.com"] are equal after lower-casing and
sorting, yet the second search misses the cache and issues a second
underlying query. -/
theorem c5_case_sensitive_counterexample :
    sortedEmails (["A@x.com"].map strLower) =
      sortedEmails (["a@x.com"].map strLower) ∧
    (search_contacts_by_email serverOkEmpty [] ["A@x.com"]).2.2 = 1 ∧
    (search_contacts_by_email serverOkEmpty
      (search_contacts_by_email serverOkEmpty [] ["A@x.com"]).2.1 ["a@x.com"]).2.2 = 1 :=
  ⟨by decide, by decide, by decide⟩

/-- C5 (amended): cache entries for the contact-by-email search are keyed by
the sorted, comma-joined email list (as given, case-sensitively) behind the
"contacts:" type tag, so within one run any two searches whose email lists
are equal after sorting issue exactly one underlying CRM query — the second
is served from the cache and returns the first result. -/
theorem c5_cache_single_query_amended (server : List String → ServerReply)
    (e1 e2 : List String) (h1 : e1.isEmpty = false) (h2 : e2.isEmpty = false)
    (hsort : sortedEmails e1 = sortedEmails e2) :
    (search_contacts_by_email server [] e1).2.2 = 1 ∧
    (search_contacts_by_email server (search_contacts_by_email server [] e1).2.1 e2).2.2 = 0 ∧
    (search_contacts_by_email server (search_contacts_by_email server [] e1).2.1 e2).1 =
      (search_contacts_by_email server [] e1).1 := by
  have hkey : contacts_cache_key e2 = contacts_cache_key e1 := by
    unfold contacts_cache_key
    rw [hsort]
  cases hs : server e1 with
  | ok rows =>
    refine ⟨?_, ?_, ?_⟩ <;>
      simp [search_contacts_by_email, h1, h2, hs, cacheLookup, hkey]
  | httpErr =>
    refine ⟨?_, ?_, ?_⟩ <;>
      simp [search_contacts_by_email, h1, h2, hs, cacheLookup, hkey]
  | exn =>
    refine ⟨?_, ?_, ?_⟩ <;>
      simp [search_contacts_by_email, h1, h2, hs, cacheLookup, hkey]

/-- C5 witness: two concrete searches with the same set of emails in
different order hit the cache on the second call. -/
theorem c5_cache_witness :
    (search_contacts_by_email serverOkEmpty [] ["b@x.com", "a@x.com"]).2.2 = 1 ∧
    (search_contacts_by_email serverOkEmpty
      (search_contacts_by_email serverOkEmpty [] ["b@x.com", "a@x.com"]).2.1
      ["a@x.com", "b@x.com"]).2.2 = 0 ∧
    (search_contacts_by_email serverOkEmpty
      (search_contacts_by_email serverOkEmpty [] ["b@x.com", "a@x.com"]).2.1
      ["a@x.com", "b@x.com"]).1 =
      (search_contacts_by_email serverOkEmpty [] ["b@x.com", "a@x.com"]).1 :=
  c5_cache_single_query_amended serverOkEmpty ["b@x.com", "a@x.com"] ["a@x.com", "b@x.com"]
    (by decide) (by decide) (by decide)

/-- C6 counterexample: `sync_all` applies no 500-transcript ceiling.  With a
caller-supplied limit of 501 and 501 transcripts available, the run fetches
501 transcripts. -/
theorem c6_no_ceiling_counterexample :
    (sync_all_fetched env501 cfg0 (some 501)).length = 501 ∧
    ¬ ((sync_all_fetched env501 cfg0 (some 501)).length ≤ 500) ∧
    run_transcripts_fetched (sync_all env501 cfg0 [] (some 501)) = some 501 := by
  have hlen : (sync_all_fetched env501 cfg0 (some 501)).length = 501 := by
    unfold sync_all_fetched
    rw [show fetch_transcripts_limit cfg0 (some 501) = 501 from rfl,
      show env501.transcripts = List.replicate 501 t0 from rfl,
      List.length_take, List.length_replicate]
    exact Nat.min_self 501
  have hne : (sync_all_fetched env501 cfg0 (some 501)).isEmpty = false := by
    cases hl : sync_all_fetched env501 cfg0 (some 501) with
    | nil => rw [hl] at hlen; simp at hlen
    | cons a l => rfl
  refine ⟨hlen, by rw [hlen]; decide, ?_⟩
  simp only [sync_all, hne, Bool.false_eq_true, if_false, run_transcripts_fetched]
  rw [hlen]

/-- C6 (amended): `sync_all` itself passes the caller-supplied limit through
uncapped — any nonzero limit `l` is used as the fetch limit verbatim — while
the hard 500 ceiling is enforced by the HTTP endpoints, which pass
`min(limit or default, 500)` into the run. -/
theorem c6_limit_passthrough_amended (env : Env) (cfg : Config) (l : Nat) (req : Option Nat)
    (hl : l ≠ 0) :
    fetch_transcripts_limit cfg (some l) = l ∧
    sync_all_fetched env cfg (some l) = env.transcripts.take l ∧
    trigger_sync_limit cfg req ≤ 500 := by
  refine ⟨?_, ?_, ?_⟩
  · simp [fetch_transcripts_limit, hl]
  · simp [sync_all_fetched, fetch_transcripts_limit, hl]
  · unfold trigger_sync_limit
    exact Nat.min_le_right _ _

/-- C6 witness: with limit 7 the run requests exactly 7 transcripts, and the
endpoint caps a requested 1000 at 500. -/
theorem c6_limit_witness :
    fetch_transcripts_limit cfg0 (some 7) = 7 ∧
    sync_all_fetched envRun cfg0 (some 7) = envRun.transcripts.take 7 ∧
    trigger_sync_limit cfg0 (some 1000) ≤ 500 :=
  c6_limit_passthrough_amended envRun cfg0 7 (some 1000) (by decide)

/-- C9: every full `sync_all` summary satisfies
created + updated + skipped + error = processed = |results| (each
per-transcript result carries exactly one of the four statuses), and
`contacts_created` is the total number of `created_contacts` entries across
the results. -/
theorem c9_counts_partition (env : Env) (cfg : Config) (pids : List String)
    (limit : Option Nat) (s : RunSummary)
    (h : sync_all env cfg pids limit = SyncAllOutput.full s) :
    s.created_count + s.updated_count + s.skipped_count + s.error_count = s.processed_count ∧
    s.processed_count = s.results.length ∧
    (∀ r ∈ s.results, r.status = "created" ∨ r.status = "updated" ∨
      r.status = "skipped" ∨ r.status = "error") ∧
    s.contacts_created = (s.results.map (fun r => r.created_contacts.length)).sum := by
  simp only [sync_all] at h
  split at h
  · exact absurd h (by simp)
  · injection h with h
    subst h
    refine ⟨?_, rfl, ?_, rfl⟩
    · apply countP_status_partition
      intro r hr
      simp only [List.mem_map] at hr
      obtain ⟨t', ht', rfl⟩ := hr
      exact process_status_mem env cfg t'
    · intro r hr
      simp only [List.mem_map] at hr
      obtain ⟨t', ht', rfl⟩ := hr
      exact process_status_mem env cfg t'

/-- C9 witness: a concrete one-transcript run satisfies the count partition. -/
theorem c9_counts_witness :
    ∃ s, sync_all envRun cfg0 [] (some 1) = SyncAllOutput.full s ∧
      s.created_count + s.updated_count + s.skipped_count + s.error_count =
        s.processed_count ∧
      s.contacts_created = (s.results.map (fun r => r.created_contacts.length)).sum := by
  cases hs : sync_all envRun cfg0 [] (some 1) with
  | empty =>
    have hne : sync_all envRun cfg0 [] (some 1) ≠ SyncAllOutput.empty := by decide
    exact absurd hs hne
  | full s =>
    have h := c9_counts_partition envRun cfg0 [] (some 1) s hs
    exact ⟨s, rfl, h.1, h.2.2.2⟩

/-- C2 (amended): a transcript that is not skipped and whose summary is
unchanged yields "created" on the first run; a second run whose interaction
lookup reflects the CRM state now holding the created interaction — i.e. the
client cache was cleared between the runs, as `sync_all` does at run start,
or the second run is in a fresh process — yields "skipped" and never creates
a second interaction with the same subject.  A same-process
`sync_transcript` pair does not satisfy the original claim: the client cache
serves the run-1 miss and the second run creates a duplicate (see the
counterexample on `sync_transcript_twice`). -/
theorem c2_idempotent (env : Env) (cfg : Config) (t : Transcript) (rid : Option Int)
    (hext : (external_emails cfg t).isEmpty = false)
    (hlink : resolution_empty (resolve env cfg t) = false)
    (hnone : env.interactionBySubject (interaction_subject t) = none)
    (hcreate : env.createInteractionResult = some rid) :
    (process_transcript env cfg t).1.status = "created" ∧
    (process_transcript (created_env env (interaction_subject t) rid (interaction_notes t))
      cfg t).1.status = "skipped" ∧
    (process_transcript (created_env env (interaction_subject t) rid (interaction_notes t))
      cfg t).2.createCalled = none := by
  have h1 : (process_transcript env cfg t).1.status = "created" := by
    rw [process_create_some_eq env cfg t rid hext hlink hnone hcreate]
  have hres2 : resolution_empty (resolve
      (created_env env (interaction_subject t) rid (interaction_notes t)) cfg t) = false := by
    rw [resolve_created_env]
    exact hlink
  have hfound2 : (created_env env (interaction_subject t) rid
      (interaction_notes t)).interactionBySubject (interaction_subject t) =
      some { entryId := rid, notes := some (interaction_notes t) } := by
    simp [created_env]
  have hcond : (has_incomplete_notes
        ((some (interaction_notes t) : Option String).getD "") &&
      !(format_content t.summary).isEmpty) = false := by
    cases hfc : (format_content t.summary).isEmpty
    · have hni := incomplete_false_of_content t hfc
      simp only [Option.getD_some, hni, Bool.false_and]
    · simp only [hfc, Bool.not_true, Bool.and_false]
  have h2 := process_skip_existing_eq
    (created_env env (interaction_subject t) rid (interaction_notes t)) cfg t
    { entryId := rid, notes := some (interaction_notes t) } hext hres2 hfound2 hcond
  rw [h2]
  exact ⟨h1, rfl, rfl⟩

/-- C2 witness: a concrete transcript is created on the first run and skipped
on the second, with no second create call. -/
theorem c2_idempotent_witness :
    (process_transcript envBase cfg0 t0).1.status = "created" ∧
    (process_transcript (created_env envBase (interaction_subject t0) (some 31)
      (interaction_notes t0)) cfg0 t0).1.status = "skipped" ∧
    (process_transcript (created_env envBase (interaction_subject t0) (some 31)
      (interaction_notes t0)) cfg0 t0).2.createCalled = none :=
  c2_idempotent envBase cfg0 t0 (some 31) (by decide) (by decide) rfl rfl

/-- C2 counterexample: in one process, running the single-transcript sync
twice on `t0` with an unchanged summary does NOT yield "created" then
"skipped".  `sync_transcript` never clears the client cache, run 1's
interaction search caches its `None` miss, and run 2 is served that stale
miss even though the CRM now holds the created interaction — so run 2 also
returns "created" and issues a second create call with the same subject,
creating a duplicate interaction. -/
theorem c2_stale_cache_counterexample :
    (sync_transcript_twice envBase cfg0 t0 createdRow0).1.1.status = "created" ∧
    (sync_transcript_twice envBase cfg0 t0 createdRow0).2.1.status = "created" ∧
    ¬ ((sync_transcript_twice envBase cfg0 t0 createdRow0).2.1.status = "skipped") ∧
    (sync_transcript_twice envBase cfg0 t0 createdRow0).1.2.createCalled.map
      (fun a => a.subject) = some (interaction_subject t0) ∧
    (sync_transcript_twice envBase cfg0 t0 createdRow0).2.2.createCalled.map
      (fun a => a.subject) = some (interaction_subject t0) :=
  ⟨by decide, by decide, by decide, by decide, by decide⟩

/-- C10: when contacts were newly created during the pipeline and the
subsequent interaction creation fails, `process_transcript` returns status
"error" with error "Failed to create interaction", and its
`created_contacts` field still lists the newly created contacts. -/
theorem c10_error_keeps_created_contacts (env : Env) (cfg : Config) (t : Transcript)
    (hext : (external_emails cfg t).isEmpty = false)
    (hlink : resolution_empty (resolve env cfg t) = false)
    (hnone : env.interactionBySubject (interaction_subject t) = none)
    (hfail : env.createInteractionResult = none)
    (hcc : (resolve env cfg t).created_contacts ≠ []) :
    (process_transcript env cfg t).1.status = "error" ∧
    (process_transcript env cfg t).1.error = some "Failed to create interaction" ∧
    (process_transcript env cfg t).1.created_contacts =
      (resolve env cfg t).created_contacts ∧
    (process_transcript env cfg t).1.created_contacts ≠ [] := by
  rw [process_create_none_eq env cfg t hext hlink hnone hfail]
  exact ⟨rfl, rfl, rfl, hcc⟩

/-- C10 witness: a concrete failing creation still reports the created
contact. -/
theorem c10_error_witness :
    (process_transcript envCreateFails cfg0 t1).1.status = "error" ∧
    (process_transcript envCreateFails cfg0 t1).1.error =
      some "Failed to create interaction" ∧
    (process_transcript envCreateFails cfg0 t1).1.created_contacts =
      (resolve envCreateFails cfg0 t1).created_contacts ∧
    (process_transcript envCreateFails cfg0 t1).1.created_contacts ≠ [] :=
  c10_error_keeps_created_contacts envCreateFails cfg0 t1 (by decide) (by decide) rfl rfl
    (by decide)
